import Mathlib

/-!
Shallow embedding of the celery worker front-end (`celery/bin/celeryd.py`,
`celery/conf.py`, `celery/loaders/default.py`) together with the parts of the
Beat scheduler pinned down by the specification, and proofs of the claimed
properties.

Python dictionaries of queue options are embedded as records of `Option`
fields; Python `dict`s keyed by queue/task name are embedded as association
lists; Python exceptions are embedded as `Except` errors.
-/

namespace Celery

/-- Exceptions raised by the embedded code paths. -/
inductive PyErr
  | keyError
  | improperlyConfigured
  | schedulingError
deriving DecidableEq, Repr

/-- Python truthiness-based `x or default` on strings: the empty string is
falsy, `None` is falsy. Embeds `self.logfile or "[stderr]"` and
`hostname or socket.gethostname()`. -/
def pyOrStr (x : Option String) (default : String) : String :=
  match x with
  | none => default
  | some s => if s = "" then default else s

/-- `logging._levelNames` string→int direction, plus the
`LOG_LEVELS["FATAL"] = logging.FATAL` entry added in `conf.py`
(`conf.py` lines 18-20). Lookup happens after `.upper()`. -/
def LOG_LEVELS_levelOf (s : String) : Option Int :=
  if s = "CRITICAL" then some 50
  else if s = "FATAL" then some 50
  else if s = "ERROR" then some 40
  else if s = "WARNING" then some 30
  else if s = "WARN" then some 30
  else if s = "INFO" then some 20
  else if s = "DEBUG" then some 10
  else if s = "NOTSET" then some 0
  else none

/-- `logging._levelNames` int→string direction; the key `50` maps to
`"FATAL"` because `LOG_LEVELS[logging.FATAL] = "FATAL"` overwrites the
`CRITICAL` entry (`conf.py` line 20, `logging.FATAL == logging.CRITICAL`). -/
def LOG_LEVELS_nameOf (i : Int) : Option String :=
  if i = 50 then some "FATAL"
  else if i = 40 then some "ERROR"
  else if i = 30 then some "WARNING"
  else if i = 20 then some "INFO"
  else if i = 10 then some "DEBUG"
  else if i = 0 then some "NOTSET"
  else none

/-- `conf._DEFAULTS["CELERYD_CONCURRENCY"]` (`conf.py` line 53):
`0` means "defaults to cpu count". -/
def CELERYD_CONCURRENCY : Int := 0

/-- A queue-options dictionary: the keys `carrot` cares about, each possibly
absent. Embeds the `options` dicts stored in `conf.QUEUES`. -/
structure QueueOpts where
  exchange : Option String
  exchange_type : Option String
  binding_key : Option String
  routing_key : Option String
deriving DecidableEq, Repr

/-- The routing-related module constants of `conf.py` (lines 200-204),
kept as parameters so theorems can distinguish them. -/
structure RoutingConf where
  default_exchange : String
  default_exchange_type : String
  default_routing_key : String
deriving DecidableEq, Repr

/-- `conf._init_queues._defaults` (`conf.py` lines 247-252): the chain of
`opts.setdefault(...)` calls.  Note `binding_key` defaults to
`DEFAULT_EXCHANGE`, and `routing_key` defaults to `opts.get("binding_key")`
evaluated after the `binding_key` setdefault, hence always a string. -/
def _defaults (c : RoutingConf) (opts : QueueOpts) : QueueOpts :=
  let exchange := opts.exchange.getD c.default_exchange
  let exchange_type := opts.exchange_type.getD c.default_exchange_type
  let binding_key := opts.binding_key.getD c.default_exchange
  let routing_key := opts.routing_key.getD binding_key
  { exchange := some exchange
    exchange_type := some exchange_type
    binding_key := some binding_key
    routing_key := some routing_key }

/-- `conf._init_queues` (`conf.py` lines 243-254): apply `_defaults` to every
queue's options. -/
def _init_queues (c : RoutingConf) (queues : List (String × QueueOpts)) :
    List (String × QueueOpts) :=
  queues.map (fun kv => (kv.1, _defaults c kv.2))

/-- `conf.get_queues` (`conf.py` lines 257-258). -/
def get_queues (c : RoutingConf) (QUEUES : List (String × QueueOpts)) :
    List (String × QueueOpts) :=
  _init_queues c QUEUES

/-- Arguments to `Worker.__init__` (`celeryd.py` lines 174-181), with the
defaults of the keyword list; `loglevel` may arrive as an int or a string,
`queues` as a comma-separated string or a list. -/
structure WorkerArgs where
  concurrency : Int
  loglevel : Int ⊕ String
  logfile : Option String
  hostname : Option String
  discard : Bool
  run_clockservice : Bool
  schedule : String
  task_time_limit : Option Int
  task_soft_time_limit : Option Int
  max_tasks_per_child : Option Int
  queues : Option (String ⊕ List String)
  events : Bool
  db : Option String

/-- Host facts read by `Worker.__init__`: `multiprocessing.cpu_count()`,
`socket.gethostname()` and `sys.stdout.isatty()`. -/
structure HostEnv where
  cpu_count : Int
  gethostname : String
  isatty : Bool

/-- The state stored on a constructed `Worker` (`celeryd.py` lines 182-201). -/
structure WorkerObj where
  concurrency : Int
  loglevel : Int
  logfile : Option String
  hostname : String
  discard : Bool
  run_clockservice : Bool
  schedule : String
  events : Bool
  task_time_limit : Option Int
  task_soft_time_limit : Option Int
  max_tasks_per_child : Option Int
  db : Option String
  queues : List String
  isatty : Bool
deriving DecidableEq, Repr

/-- `self.queues = queues or []` followed by
`if isinstance(self.queues, basestring): self.queues = self.queues.split(",")`
(`celeryd.py` lines 194, 197-198).  An empty string is falsy in Python. -/
def normalizeQueuesArg (queues : Option (String ⊕ List String)) : List String :=
  match queues with
  | none => []
  | some (Sum.inl s) => if s = "" then [] else s.splitOn ","
  | some (Sum.inr l) => l

/-- `if not isinstance(self.loglevel, int): self.loglevel =
conf.LOG_LEVELS[self.loglevel.upper()]` (`celeryd.py` lines 200-201);
an unknown name raises `KeyError`. -/
def resolveLoglevel (loglevel : Int ⊕ String) : Except PyErr Int :=
  match loglevel with
  | Sum.inl i => Except.ok i
  | Sum.inr s =>
    match LOG_LEVELS_levelOf s.toUpper with
    | some i => Except.ok i
    | none => Except.error PyErr.keyError

/-- `Worker.__init__` (`celeryd.py` lines 174-201).  Note
`self.concurrency = concurrency or multiprocessing.cpu_count()`: a Python
`or` on ints, so exactly `0` falls back to the CPU count.  No other field
is validated or altered: in particular the time limits are stored as given. -/
def workerInit (env : HostEnv) (a : WorkerArgs) : Except PyErr WorkerObj :=
  match resolveLoglevel a.loglevel with
  | Except.error e => Except.error e
  | Except.ok ll =>
  Except.ok
    { concurrency := if a.concurrency = 0 then env.cpu_count else a.concurrency
      loglevel := ll
      logfile := a.logfile
      hostname := pyOrStr a.hostname env.gethostname
      discard := a.discard
      run_clockservice := a.run_clockservice
      schedule := a.schedule
      events := a.events
      task_time_limit := a.task_time_limit
      task_soft_time_limit := a.task_soft_time_limit
      max_tasks_per_child := a.max_tasks_per_child
      db := a.db
      queues := normalizeQueuesArg a.queues
      isatty := env.isatty }

/-- The names of the queues in a queue table. -/
def queueNames (qs : List (String × QueueOpts)) : List String :=
  qs.map Prod.fst

/-- Modelled from the spec: `Router.add_queue` lives in `celery/routes.py`,
which is not under src/; per the spec (section 4.6) the Router registers a
missing queue "with a default direct-exchange binding whose exchange name,
binding key, and routing key equal the queue name". -/
def routerDefaultOpts (name : String) : QueueOpts :=
  { exchange := some name
    exchange_type := some "direct"
    binding_key := some name
    routing_key := some name }

/-- Modelled from the spec: the Router mutates the `conf.QUEUES` dict it was
constructed over, inserting the new queue (dict insertion appends a new key). -/
def router_add_queue (qs : List (String × QueueOpts)) (name : String) :
    List (String × QueueOpts) :=
  qs ++ [(name, routerDefaultOpts name)]

/-- The `for queue in self.queues` loop of `Worker.init_queues`
(`celeryd.py` lines 234-240), threading the mutated `conf.QUEUES`. -/
def initQueuesLoop (createMissing : Bool) (qs : List (String × QueueOpts)) :
    List String → Except PyErr (List (String × QueueOpts))
  | [] => Except.ok qs
  | name :: rest =>
    if name ∈ queueNames qs then initQueuesLoop createMissing qs rest
    else if createMissing then
      initQueuesLoop createMissing (router_add_queue qs name) rest
    else Except.error PyErr.improperlyConfigured

/-- `Worker.init_queues` (`celeryd.py` lines 229-240): when the CLI filter
`self.queues` is non-empty, restrict `conf.QUEUES` to the filtered names and
then add (or reject) each filtered name missing from the table. -/
def init_queues (filter : List String) (createMissing : Bool)
    (QUEUES : List (String × QueueOpts)) :
    Except PyErr (List (String × QueueOpts)) :=
  if filter.isEmpty then Except.ok QUEUES
  else
    initQueuesLoop createMissing
      (QUEUES.filter (fun kv => decide (kv.1 ∈ filter))) filter

/-! ### Signal handlers (`celeryd.py` lines 338-399) -/

/-- Which handler is currently installed for `SIGINT`. -/
inductive IntHandler
  | first
  | again
deriving DecidableEq, Repr

/-- The `WorkController` surface touched by the signal handlers: not under
src/; `stop()` (warm shutdown) and `terminate()` (cold shutdown) are recorded
as flags. -/
structure WorkerCtl where
  stopped : Bool
  terminated : Bool
deriving DecidableEq, Repr

/-- The state of the main process as the signal handlers see it. -/
structure MainState where
  worker : WorkerCtl
  intHandler : IntHandler
  log : List String
deriving DecidableEq, Repr

/-- `install_worker_int_handler` (`celeryd.py` lines 338-352): installs the
first-`SIGINT` handler. -/
def install_worker_int_handler (s : MainState) : MainState :=
  { s with intHandler := IntHandler.first }

/-- Delivering `SIGINT` to the process: runs the currently installed handler
(`celeryd.py` `_stop` closures, lines 340-350 and 357-363).  The returned
`Bool` records that the handler raised `SystemExit`, which both handlers do
unconditionally. -/
def deliverSIGINT (processName : String) (s : MainState) : MainState × Bool :=
  match s.intHandler with
  | IntHandler.first =>
    if processName = "MainProcess" then
      ({ s with
          log := s.log ++
            ["celeryd: Hitting Ctrl+C again will terminate all running tasks!",
             "celeryd: Warm shutdown (" ++ processName ++ ")"]
          intHandler := IntHandler.again
          worker := { s.worker with stopped := true } }, true)
    else (s, true)
  | IntHandler.again =>
    if processName = "MainProcess" then
      ({ s with
          log := s.log ++ ["celeryd: Cold shutdown (" ++ processName ++ ")"]
          worker := { s.worker with terminated := true } }, true)
    else (s, true)

/-- Which `SIGHUP` handler `install_platform_tweaks` installs. -/
inductive HupHandler
  | restart
  | notSupported
deriving DecidableEq, Repr

/-- The `SIGHUP` part of `Worker.install_platform_tweaks`
(`celeryd.py` lines 318-328): only when detached from a terminal is any HUP
handler installed; on OS X it is the not-supported handler, elsewhere the
restart handler. -/
def installedHupHandler (isOSX isatty : Bool) : Option HupHandler :=
  if !isatty then
    if isOSX then some HupHandler.notSupported
    else some HupHandler.restart
  else none

/-- Observable actions a `SIGHUP` handler performs. -/
inductive SigAction
  | warnLog (msg : String)
  | errorLog (msg : String)
  | stopWorker
  | execv (exe : String) (argv : List String)
deriving DecidableEq, Repr

/-- Running the installed `SIGHUP` handler:
`install_worker_restart_handler.restart_worker_sig_handler`
(`celeryd.py` lines 383-388) warns, stops the worker and re-execs the
process with `[sys.executable] + sys.argv`;
`install_HUP_not_supported_handler.warn_on_HUP_handler` (lines 395-397)
only logs an error. -/
def runHupHandler (h : HupHandler) (executable : String) (argv : List String) :
    List SigAction :=
  match h with
  | HupHandler.restart =>
    [SigAction.warnLog ("Restarting celeryd (" ++ " ".intercalate argv ++ ")"),
     SigAction.stopWorker,
     SigAction.execv executable (executable :: argv)]
  | HupHandler.notSupported =>
    [SigAction.errorLog
      "SIGHUP not supported: Restarting with HUP is unstable on this platform!"]

/-! ### Default loader (`celery/loaders/default.py`) -/

/-- Python values stored in settings dictionaries. `cls` stands for a class
object obtained by `getattr(import_module(mod), cls)`. -/
inductive PyVal
  | str (s : String)
  | bool (b : Bool)
  | int (n : Int)
  | tuple (xs : List PyVal)
  | cls (module : String) (name : String)

/-- First-match lookup in an embedded Python dict. -/
def dictGet (d : List (String × PyVal)) (key : String) : Option PyVal :=
  match d with
  | [] => none
  | kv :: rest => if kv.1 = key then some kv.2 else dictGet rest key

/-- `dict(base, **over)`: the keys of `base` not overridden, then `over`. -/
def dictMerge (base over : List (String × PyVal)) : List (String × PyVal) :=
  base.filter (fun kv => decide (kv.1 ∉ over.map Prod.fst)) ++ over

/-- `default.DEFAULT_SETTINGS` (`default.py` lines 10-18). -/
def DEFAULT_SETTINGS : List (String × PyVal) :=
  [("DEBUG", PyVal.bool false),
   ("ADMINS", PyVal.tuple []),
   ("DATABASE_ENGINE", PyVal.str "sqlite3"),
   ("DATABASE_NAME", PyVal.str "celery.sqlite"),
   ("INSTALLED_APPS", PyVal.tuple [PyVal.str "celery"]),
   ("CELERY_IMPORTS", PyVal.tuple []),
   ("CELERY_TASK_ERROR_WHITELIST", PyVal.tuple [])]

/-- `default.DEFAULT_UNCONFIGURED_SETTINGS` (`default.py` lines 20-22). -/
def DEFAULT_UNCONFIGURED_SETTINGS : List (String × PyVal) :=
  [("CELERY_RESULT_BACKEND", PyVal.str "amqp")]

/-- Extract the strings of a settings tuple (used for `INSTALLED_APPS` and
`CELERY_TASK_ERROR_WHITELIST`, both tuples of strings). -/
def tupleStrings : PyVal → List String
  | PyVal.tuple xs =>
    xs.filterMap (fun v => match v with | PyVal.str s => some s | _ => none)
  | _ => []

/-- `fqn.rsplit('.', 1)` for a dotted path: split at the last dot. -/
def rsplitDot1 (s : String) : String × String :=
  match (s.splitOn ".").reverse with
  | [] => ("", s)
  | [_] => ("", s)
  | last :: revInit => (".".intercalate revInit.reverse, last)

/-- `Loader.setup_settings` (`default.py` lines 52-62): merge the defaults
with the given dict, dedupe `INSTALLED_APPS`, and import each
`CELERY_TASK_ERROR_WHITELIST` entry as a class. -/
def setup_settings (settingsdict : List (String × PyVal)) :
    List (String × PyVal) :=
  let settings := dictMerge DEFAULT_SETTINGS settingsdict
  let installed_apps :=
    (tupleStrings ((dictGet DEFAULT_SETTINGS "INSTALLED_APPS").getD (PyVal.tuple [])) ++
      tupleStrings ((dictGet settings "INSTALLED_APPS").getD (PyVal.tuple []))).dedup
  let whitelist :=
    (tupleStrings
      ((dictGet settings "CELERY_TASK_ERROR_WHITELIST").getD
        (PyVal.tuple []))).map
      (fun fqn => PyVal.cls (rsplitDot1 fqn).1 (rsplitDot1 fqn).2)
  dictMerge settings
    [("INSTALLED_APPS", PyVal.tuple (installed_apps.map PyVal.str)),
     ("CELERY_TASK_ERROR_WHITELIST", PyVal.tuple whitelist)]

/-- `default.wanted_module_item` (`default.py` lines 29-30). -/
def wanted_module_item (item : String) : Bool :=
  !(item.startsWith "_")

/-- What importing the configuration module can yield: `none` embeds an
`ImportError` (no `celeryconfig` module found), `some items` the module's
attribute dictionary. -/
structure LoaderEnv where
  celeryconfigItems : Option (List (String × PyVal))

/-- Result of `Loader.read_configuration`: the settings it returns, the
loader's `configured` flag afterwards, and the warnings it issued. -/
structure ReadConfigResult where
  settings : List (String × PyVal)
  configured : Bool
  warnings : List String

/-- `Loader.read_configuration` (`default.py` lines 83-100): on
`ImportError` issue the `NotConfigured` warning and return the fallback
settings, leaving `configured` as it was; on success collect the
non-underscore module items, set `configured = True`, and build settings
from them.  Modelled from the spec: `BaseLoader` (celery/loaders/base.py,
not under src/) initializes the `configured` attribute to false, which is
the `configured0` argument here. -/
def read_configuration (env : LoaderEnv) (configured0 : Bool) :
    ReadConfigResult :=
  match env.celeryconfigItems with
  | none =>
    { settings := setup_settings DEFAULT_UNCONFIGURED_SETTINGS
      configured := configured0
      warnings := ["NotConfigured"] }
  | some items =>
    let usercfg := items.filter (fun kv => wanted_module_item kv.1)
    { settings := setup_settings usercfg
      configured := true
      warnings := [] }

/-- `Worker.init_loader` (`celeryd.py` lines 242-248): load the settings via
the current loader and raise `ImproperlyConfigured` when the loader did not
find a configuration.  Returns the warnings issued while loading together
with the outcome. -/
def init_loader (env : LoaderEnv) :
    List String × Except PyErr (List (String × PyVal)) :=
  let r := read_configuration env false
  (r.warnings,
   if r.configured then Except.ok r.settings
   else Except.error PyErr.improperlyConfigured)

/-! ### Startup banner (`celeryd.py` lines 88-101, 268-295) -/

/-- Insert a string into an already-sorted list (ascending). -/
def insertSorted (s : String) : List String → List String
  | [] => [s]
  | t :: ts => if s ≤ t then s :: t :: ts else t :: insertSorted s ts

/-- Python `sorted` on a list of strings. -/
def sortStrings : List String → List String
  | [] => []
  | s :: ss => insertSorted s (sortStrings ss)

/-- The name filter of `Worker.tasklist` (`celeryd.py` lines 268-273):
without builtins, drop names starting with `"celery."`. -/
def tasklistNames (registered : List String) (include_builtins : Bool) :
    List String :=
  if include_builtins then registered
  else registered.filter (fun s => !(s.startsWith "celery."))

/-- `TASK_LIST_FMT % "\n".join("\t. %s" % task for task in sorted(tasklist))`
(`celeryd.py` lines 101, 274-275). -/
def tasklistRender (registered : List String) (include_builtins : Bool) :
    String :=
  "    . tasks ->\n" ++
    "\n".intercalate
      ((sortStrings (tasklistNames registered include_builtins)).map
        (fun task => "\t. " ++ task))

/-- `include_builtins = self.loglevel <= logging.DEBUG`
(`celeryd.py` line 280, `logging.DEBUG == 10`). -/
def includeBuiltins (loglevel : Int) : Bool :=
  loglevel ≤ 10

/-- The dictionary substituted into `STARTUP_INFO_FMT`
(`celeryd.py` lines 285-295).  `queues` holds the table that
`info.format_queues` (celery/utils, not under src/) renders, `conninfo` the
string from `info.format_broker_info()`, `loader` the loader class name from
`get_full_cls_name`. -/
structure Banner where
  conninfo : String
  queues : List (String × QueueOpts)
  concurrency : Int
  loglevelName : Option String
  logfile : String
  celerybeat : String
  events : String
  tasks : String
  loader : String
deriving DecidableEq, Repr

/-- `Worker.startup_info` (`celeryd.py` lines 277-295): the task list is
built only when `self.loglevel <= logging.INFO` (`logging.INFO == 20`),
builtins included only at `DEBUG` or finer; the queue table shown is
`conf.get_queues()` applied to the (possibly filtered) `conf.QUEUES`. -/
def startup_info (w : WorkerObj) (registered : List String)
    (rc : RoutingConf) (QUEUES : List (String × QueueOpts))
    (conninfo loaderName : String) : Banner :=
  let tasklist :=
    if w.loglevel ≤ 20 then tasklistRender registered (includeBuiltins w.loglevel)
    else ""
  { conninfo := conninfo
    queues := get_queues rc QUEUES
    concurrency := w.concurrency
    loglevelName := LOG_LEVELS_nameOf w.loglevel
    logfile := pyOrStr w.logfile "[stderr]"
    celerybeat := if w.run_clockservice then "ON" else "OFF"
    events := if w.events then "ON" else "OFF"
    tasks := tasklist
    loader := loaderName }

/-! ### `Worker.run` (`celeryd.py` lines 203-223) -/

/-- Modelled from the spec: `discard_all` (celery/task, not under src/)
"discards all pending messages irrevocably" and returns their count;
`purge_messages` prints that count (`celeryd.py` lines 257-261).  The
`messages`/`message` word choice is `discarded_count > 1 and "messages" or
"message"`. -/
def discardLine (n : Nat) : String :=
  "discard: Erased " ++ toString n ++ " " ++
    (if n > 1 then "messages" else "message") ++ " from the queue.\n"

/-- Python truthiness of an embedded value (`if getattr(self.settings,
"DEBUG", False):`). -/
def pyTruthy : PyVal → Bool
  | PyVal.str s => decide (s ≠ "")
  | PyVal.bool b => b
  | PyVal.int n => decide (n ≠ 0)
  | PyVal.tuple xs => !xs.isEmpty
  | PyVal.cls _ _ => true

/-- Observable events of `Worker.run`, in program order. -/
inductive RunEvent
  | warning (category : String)
  | printStarting (hostname : String)
  | warnSettingsDebug
  | printDiscard (count : Nat) (line : String)
  | workerInitHook
  | printBanner (b : Banner)
  | workerStarted (concurrency : Int)
deriving DecidableEq, Repr

/-- Everything `Worker.run` reads from the outside world. -/
structure RunEnv where
  loader : LoaderEnv
  loaderName : String
  conninfo : String
  routing : RoutingConf
  QUEUES : List (String × QueueOpts)
  createMissing : Bool
  registered : List String
  pendingMessages : Nat

/-- The outcome of `Worker.run`: the events emitted in order, the exception
that aborted it (if any), and the number of messages still waiting at the
broker afterwards. -/
structure RunResult where
  events : List RunEvent
  error : Option PyErr
  brokerPending : Nat

/-- `Worker.run` (`celeryd.py` lines 203-223): `init_loader`, `init_queues`,
redirect stdouts (logging only), print the starting line, warn on
`settings.DEBUG`, purge when `--discard` was given, run the loader's worker
init hook, print the startup banner, and hand over to the
`WorkController`. -/
def Worker.run (env : RunEnv) (w : WorkerObj) : RunResult :=
  let loaded := init_loader env.loader
  let warnEvents := loaded.1.map RunEvent.warning
  match loaded.2 with
  | Except.error e =>
    { events := warnEvents, error := some e
      brokerPending := env.pendingMessages }
  | Except.ok settings =>
    match init_queues w.queues env.createMissing env.QUEUES with
    | Except.error e =>
      { events := warnEvents, error := some e
        brokerPending := env.pendingMessages }
    | Except.ok qs =>
      let ev := warnEvents ++ [RunEvent.printStarting w.hostname]
      let ev :=
        if ((dictGet settings "DEBUG").map pyTruthy).getD false then
          ev ++ [RunEvent.warnSettingsDebug]
        else ev
      let purged := w.discard
      let ev :=
        if purged then
          ev ++ [RunEvent.printDiscard env.pendingMessages
                  (discardLine env.pendingMessages)]
        else ev
      let ev := ev ++ [RunEvent.workerInitHook]
      let ev := ev ++
        [RunEvent.printBanner
          (startup_info w env.registered env.routing qs env.conninfo
            env.loaderName)]
      { events := ev ++ [RunEvent.workerStarted w.concurrency]
        error := none
        brokerPending := if purged then 0 else env.pendingMessages }

/-- Does a run trace contain the `WorkController` start event? -/
def startedIn (events : List RunEvent) : Prop :=
  ∃ c, RunEvent.workerStarted c ∈ events

/-! ### Beat schedule entries (modelled from the spec) -/

/-- Modelled from the spec: `celery.beat` is not under src/ (only its tests,
`tests/test_beat.py`, are).  A schedule entry holds the task name,
`last_run_at` and `total_run_count` (spec section 3; test_beat.py
`TestScheduleEntry`).  Time is an abstract tick counter. -/
structure ScheduleEntry where
  name : String
  last_run_at : Nat
  total_run_count : Nat
deriving DecidableEq, Repr

/-- Modelled from the spec: `ScheduleEntry.next()` returns a new entry with
`last_run_at = now` and the run count incremented by one (spec section 4.7:
"on success, update `last_run_at = now` and `total_run_count += 1`";
test_beat.py `test_next`). -/
def ScheduleEntry.next (e : ScheduleEntry) (now : Nat) : ScheduleEntry :=
  { e with last_run_at := now, total_run_count := e.total_run_count + 1 }

/-- First-match lookup of a schedule entry by task name. -/
def lookupEntry (sched : List (String × ScheduleEntry)) (name : String) :
    Option ScheduleEntry :=
  match sched with
  | [] => none
  | kv :: rest => if kv.1 = name then some kv.2 else lookupEntry rest name

/-- Replace the entry stored under `name`. -/
def schedUpdate (sched : List (String × ScheduleEntry)) (name : String)
    (e : ScheduleEntry) : List (String × ScheduleEntry) :=
  sched.map (fun kv => if kv.1 = name then (kv.1, e) else kv)

/-- Modelled from the spec: `Scheduler.apply_async` (celery/beat.py, not
under src/).  For a due entry, enqueue the task to the broker — `brokerOk`
says whether that enqueue succeeds; on success store the advanced entry in
the schedule; on broker failure raise `SchedulingError` at the entry,
leaving state untouched (spec section 4.7; test_beat.py
`test_apply_async_raises_SchedulingError_on_error`). -/
def Scheduler.apply_async (brokerOk : Bool) (now : Nat)
    (sched : List (String × ScheduleEntry)) (name : String) :
    Except PyErr (List (String × ScheduleEntry)) :=
  match lookupEntry sched name with
  | none => Except.error PyErr.keyError
  | some e =>
    if brokerOk then Except.ok (schedUpdate sched name (e.next now))
    else Except.error PyErr.schedulingError

/-- Modelled from the spec: the Beat tick catches `SchedulingError` and
keeps the schedule unchanged, so the next tick retries the entry
(spec section 4.7; test_beat.py `test_quick_schedulingerror`). -/
def Scheduler.tickDispatch (brokerOk : Bool) (now : Nat)
    (sched : List (String × ScheduleEntry)) (name : String) :
    List (String × ScheduleEntry) :=
  match Scheduler.apply_async brokerOk now sched name with
  | Except.ok sched2 => sched2
  | Except.error _ => sched

/-! ### Helper lemmas -/

theorem lookupEntry_schedUpdate (sched : List (String × ScheduleEntry))
    (name : String) (e v : ScheduleEntry)
    (h : lookupEntry sched name = some e) :
    lookupEntry (schedUpdate sched name v) name = some v := by
  induction sched with
  | nil => simp [lookupEntry] at h
  | cons kv rest ih =>
    by_cases hk : kv.1 = name
    · simp [lookupEntry, schedUpdate, hk]
    · simp [lookupEntry, hk] at h
      have h2 := ih h
      simp [schedUpdate] at h2
      simpa [lookupEntry, schedUpdate, hk] using h2

theorem mem_insertSorted (a s : String) (l : List String) :
    a ∈ insertSorted s l ↔ a = s ∨ a ∈ l := by
  induction l with
  | nil => simp [insertSorted]
  | cons t ts ih =>
    by_cases hle : s ≤ t
    · simp [insertSorted, hle]
    · simp [insertSorted, hle, ih]
      tauto

theorem mem_sortStrings (a : String) (l : List String) :
    a ∈ sortStrings l ↔ a ∈ l := by
  induction l with
  | nil => simp [sortStrings]
  | cons s ss ih => simp [sortStrings, mem_insertSorted, ih]

theorem mem_queueNames_filter (flt : List String)
    (queues : List (String × QueueOpts)) (n : String) :
    n ∈ queueNames (queues.filter (fun kv => decide (kv.1 ∈ flt))) ↔
      n ∈ queueNames queues ∧ n ∈ flt := by
  simp only [queueNames, List.mem_map, List.mem_filter, decide_eq_true_eq]
  constructor
  · rintro ⟨kv, ⟨hkv, hin⟩, rfl⟩
    exact ⟨⟨kv, hkv, rfl⟩, hin⟩
  · rintro ⟨⟨kv, hkv, rfl⟩, hin⟩
    exact ⟨kv, ⟨hkv, hin⟩, rfl⟩

theorem initQueuesLoop_create (names : List String) :
    ∀ qs, ∃ res, initQueuesLoop true qs names = Except.ok res ∧
      (∀ kv, kv ∈ qs → kv ∈ res) ∧
      (∀ kv, kv ∈ res → kv ∈ qs ∨ kv.2 = routerDefaultOpts kv.1) ∧
      (∀ n, n ∈ queueNames res ↔ n ∈ queueNames qs ∨ n ∈ names) := by
  induction names with
  | nil =>
    intro qs
    exact ⟨qs, rfl, fun kv h => h, fun kv h => Or.inl h, by simp⟩
  | cons name rest ih =>
    intro qs
    by_cases hmem : name ∈ queueNames qs
    · obtain ⟨res, hres, hsub, hfrom, hnames⟩ := ih qs
      refine ⟨res, ?_, hsub, hfrom, ?_⟩
      · simp [initQueuesLoop, hmem, hres]
      · intro n
        rw [hnames, List.mem_cons]
        constructor
        · rintro (h | h)
          · exact Or.inl h
          · exact Or.inr (Or.inr h)
        · rintro (h | h | h)
          · exact Or.inl h
          · exact Or.inl (by rw [h]; exact hmem)
          · exact Or.inr h
    · obtain ⟨res, hres, hsub, hfrom, hnames⟩ := ih (router_add_queue qs name)
      refine ⟨res, ?_, ?_, ?_, ?_⟩
      · simp [initQueuesLoop, hmem, hres]
      · intro kv hkv
        exact hsub kv (by simp [router_add_queue, hkv])
      · intro kv hkv
        rcases hfrom kv hkv with h | h
        · rcases (by simpa [router_add_queue] using h :
              kv ∈ qs ∨ kv = (name, routerDefaultOpts name)) with h2 | h2
          · exact Or.inl h2
          · right
            rw [h2]
        · exact Or.inr h
      · intro n
        rw [hnames, List.mem_cons]
        have hq : queueNames (router_add_queue qs name) =
            queueNames qs ++ [name] := by
          simp [queueNames, router_add_queue]
        rw [hq]
        simp only [List.mem_append, List.mem_singleton]
        tauto

theorem initQueuesLoop_nocreate (names : List String) :
    ∀ qs,
      ((∀ n, n ∈ names → n ∈ queueNames qs) →
        initQueuesLoop false qs names = Except.ok qs) ∧
      ((∃ n, n ∈ names ∧ n ∉ queueNames qs) →
        initQueuesLoop false qs names =
          Except.error PyErr.improperlyConfigured) := by
  induction names with
  | nil =>
    intro qs
    refine ⟨fun _ => rfl, ?_⟩
    rintro ⟨n, hn, _⟩
    simp at hn
  | cons name rest ih =>
    intro qs
    constructor
    · intro hall
      have hmem : name ∈ queueNames qs := hall name (by simp)
      have hrest := (ih qs).1 (fun n hn => hall n (by simp [hn]))
      simp [initQueuesLoop, hmem, hrest]
    · rintro ⟨n, hn, hnmem⟩
      by_cases hmem : name ∈ queueNames qs
      · rcases List.mem_cons.mp hn with h | h2
        · exact absurd (by rw [← h] at hmem; exact hmem) hnmem
        · have hrest := (ih qs).2 ⟨n, h2, hnmem⟩
          simp [initQueuesLoop, hmem, hrest]
      · simp [initQueuesLoop, hmem]

/-! ### Claim theorems -/

/-- C2: with a non-empty CLI queue filter, `init_queues` makes the active
queue set exactly the filter: configured queues whose names appear in the
filter are kept with their options, every filtered name absent from the
configuration is added with the Router's default options when
`CREATE_MISSING_QUEUES` is enabled, and with it disabled a missing name
makes `init_queues` raise `ImproperlyConfigured`; with no filter the
configured queue table is returned unchanged. -/
theorem init_queues_applies_cli_filter (flt : List String) (cm : Bool)
    (QUEUES : List (String × QueueOpts)) :
    (flt = [] → init_queues flt cm QUEUES = Except.ok QUEUES) ∧
    (flt ≠ [] → cm = true →
      ∃ res, init_queues flt true QUEUES = Except.ok res ∧
        (∀ n, n ∈ queueNames res ↔ n ∈ flt) ∧
        (∀ kv, kv ∈ QUEUES → kv.1 ∈ flt → kv ∈ res) ∧
        (∀ kv, kv ∈ res →
          (kv ∈ QUEUES ∧ kv.1 ∈ flt) ∨ kv.2 = routerDefaultOpts kv.1)) ∧
    (flt ≠ [] → cm = false →
      ((∀ n, n ∈ flt → n ∈ queueNames QUEUES) →
        init_queues flt false QUEUES =
          Except.ok (QUEUES.filter (fun kv => decide (kv.1 ∈ flt)))) ∧
      ((∃ n, n ∈ flt ∧ n ∉ queueNames QUEUES) →
        init_queues flt false QUEUES =
          Except.error PyErr.improperlyConfigured)) := by
  refine ⟨?_, ?_, ?_⟩
  · intro h
    simp [init_queues, h]
  · intro hne _
    have hemp : flt.isEmpty = false := by
      cases flt with
      | nil => exact absurd rfl hne
      | cons a l => rfl
    obtain ⟨res, hres, hsub, hfrom, hnames⟩ :=
      initQueuesLoop_create flt
        (QUEUES.filter (fun kv => decide (kv.1 ∈ flt)))
    refine ⟨res, ?_, ?_, ?_, ?_⟩
    · simp [init_queues, hemp, hres]
    · intro n
      rw [hnames, mem_queueNames_filter]
      constructor
      · rintro (⟨_, h⟩ | h) <;> exact h
      · intro h
        exact Or.inr h
    · intro kv hkv hflt
      exact hsub kv (List.mem_filter.mpr ⟨hkv, by simpa using hflt⟩)
    · intro kv hkv
      rcases hfrom kv hkv with h | h
      · have h2 := List.mem_filter.mp h
        exact Or.inl ⟨h2.1, by simpa using h2.2⟩
      · exact Or.inr h
  · intro hne _
    have hemp : flt.isEmpty = false := by
      cases flt with
      | nil => exact absurd rfl hne
      | cons a l => rfl
    constructor
    · intro hall
      have hloop := (initQueuesLoop_nocreate flt
        (QUEUES.filter (fun kv => decide (kv.1 ∈ flt)))).1 ?_
      · simp [init_queues, hemp, hloop]
      · intro n hn
        rw [mem_queueNames_filter]
        exact ⟨hall n hn, hn⟩
    · rintro ⟨n, hn, hnmem⟩
      have hloop := (initQueuesLoop_nocreate flt
        (QUEUES.filter (fun kv => decide (kv.1 ∈ flt)))).2 ?_
      · simp [init_queues, hemp, hloop]
      · refine ⟨n, hn, ?_⟩
        rw [mem_queueNames_filter]
        rintro ⟨h, _⟩
        exact hnmem h

/-- C2 witness: filtering a two-queue table down to `celery` and the
unconfigured `video` (with `create_missing_queues` on) yields a table whose
names are exactly the filter. -/
theorem init_queues_applies_cli_filter_witness :
    ∃ res, init_queues ["celery", "video"] true
        [("celery", routerDefaultOpts "celery"),
         ("other", routerDefaultOpts "other")] = Except.ok res ∧
      ("video" ∈ queueNames res ↔ "video" ∈ ["celery", "video"]) ∧
      ("other" ∈ queueNames res ↔ "other" ∈ ["celery", "video"]) := by
  obtain ⟨res, hres, hnames, _, _⟩ :=
    (init_queues_applies_cli_filter ["celery", "video"] true
      [("celery", routerDefaultOpts "celery"),
       ("other", routerDefaultOpts "other")]).2.1 (by simp) rfl
  exact ⟨res, hres, hnames "video", hnames "other"⟩

/-- C10: for every queue in the configured queue table, `get_queues`
completes missing options: `exchange` defaults to the default exchange name,
`exchange_type` to the default exchange type, `binding_key` to the default
exchange name (not to the default routing key), and `routing_key` to that
queue's (possibly just-defaulted) binding key; options already present are
left unchanged. -/
theorem get_queues_completes_defaults (c : RoutingConf)
    (queues : List (String × QueueOpts)) (name : String) (opts : QueueOpts)
    (h : (name, opts) ∈ queues) :
    (name, _defaults c opts) ∈ get_queues c queues ∧
    (∀ e, opts.exchange = some e → (_defaults c opts).exchange = some e) ∧
    (opts.exchange = none →
      (_defaults c opts).exchange = some c.default_exchange) ∧
    (∀ e, opts.exchange_type = some e →
      (_defaults c opts).exchange_type = some e) ∧
    (opts.exchange_type = none →
      (_defaults c opts).exchange_type = some c.default_exchange_type) ∧
    (∀ e, opts.binding_key = some e →
      (_defaults c opts).binding_key = some e) ∧
    (opts.binding_key = none →
      (_defaults c opts).binding_key = some c.default_exchange ∧
      (c.default_exchange ≠ c.default_routing_key →
        (_defaults c opts).binding_key ≠ some c.default_routing_key)) ∧
    (∀ e, opts.routing_key = some e →
      (_defaults c opts).routing_key = some e) ∧
    (opts.routing_key = none →
      (_defaults c opts).routing_key = (_defaults c opts).binding_key) := by
  refine ⟨?_, ?_, ?_, ?_, ?_, ?_, ?_, ?_, ?_⟩
  · exact List.mem_map.mpr ⟨(name, opts), h, rfl⟩
  · intro e he; simp [_defaults, he]
  · intro he; simp [_defaults, he]
  · intro e he; simp [_defaults, he]
  · intro he; simp [_defaults, he]
  · intro e he; simp [_defaults, he]
  · intro he
    refine ⟨by simp [_defaults, he], ?_⟩
    intro hne
    simp [_defaults, he]
    exact fun hcontra => hne hcontra
  · intro e he; simp [_defaults, he]
  · intro he; simp [_defaults, he]

/-- C10 witness: a queue with no options filled in gets all four defaults. -/
theorem get_queues_completes_defaults_witness :
    let c : RoutingConf :=
      { default_exchange := "celery"
        default_exchange_type := "direct"
        default_routing_key := "rkey" }
    let opts : QueueOpts :=
      { exchange := none, exchange_type := none
        binding_key := none, routing_key := none }
    ("celery", _defaults c opts) ∈ get_queues c [("celery", opts)] ∧
      (opts.exchange = none → (_defaults c opts).exchange = some "celery") :=
  ⟨(get_queues_completes_defaults _ _ _ _ (by simp)).1,
   fun h =>
    (get_queues_completes_defaults
      { default_exchange := "celery"
        default_exchange_type := "direct"
        default_routing_key := "rkey" }
      [("celery",
        { exchange := none, exchange_type := none
          binding_key := none, routing_key := none })]
      "celery"
      { exchange := none, exchange_type := none
        binding_key := none, routing_key := none }
      (by simp)).2.2.1 h⟩

/-- C4: a Worker constructed with concurrency 0 (which is the configuration
default `CELERYD_CONCURRENCY`) gets the host CPU count as its pool size;
any non-zero requested concurrency is stored as given. -/
theorem worker_concurrency_zero_uses_cpu_count (env : HostEnv)
    (a : WorkerArgs) (w : WorkerObj)
    (hw : workerInit env a = Except.ok w) :
    CELERYD_CONCURRENCY = 0 ∧
    (a.concurrency = 0 → w.concurrency = env.cpu_count) ∧
    (a.concurrency ≠ 0 → w.concurrency = a.concurrency) := by
  refine ⟨rfl, ?_, ?_⟩ <;> intro hc <;>
  · cases hll : resolveLoglevel a.loglevel with
    | error e => simp [workerInit, hll] at hw
    | ok ll =>
      simp [workerInit, hll] at hw
      subst hw
      simp [hc]

/-- A host with 8 CPUs for the concurrency witness. -/
def cpuWitnessEnv : HostEnv :=
  { cpu_count := 8, gethostname := "h", isatty := true }

/-- Constructor arguments requesting concurrency 0. -/
def cpuWitnessArgs : WorkerArgs :=
  { concurrency := 0, loglevel := Sum.inl 30, logfile := none
    hostname := some "host", discard := false
    run_clockservice := false, schedule := "celerybeat-schedule"
    task_time_limit := none, task_soft_time_limit := none
    max_tasks_per_child := none, queues := none, events := false
    db := none }

/-- C4 witness: with concurrency 0 the CPU count (here 8) is used. -/
theorem worker_concurrency_zero_uses_cpu_count_witness :
    ∃ w, workerInit cpuWitnessEnv cpuWitnessArgs = Except.ok w ∧
      w.concurrency = 8 := by
  refine ⟨_, rfl, ?_⟩
  exact (worker_concurrency_zero_uses_cpu_count cpuWitnessEnv cpuWitnessArgs
    _ rfl).2.1 rfl

/-- C5 counterexample: a Worker whose hard time limit (1s) is below its soft
time limit (10s) is constructed without any error, stores both limits as
given, and a full `Worker.run` with those limits still reaches the
`WorkController` start.  Nothing in startup rejects the configuration. -/
theorem hard_lt_soft_limit_not_rejected :
    ∃ w, workerInit
        { cpu_count := 2, gethostname := "h", isatty := false }
        { concurrency := 1, loglevel := Sum.inl 30, logfile := none
          hostname := some "host", discard := false
          run_clockservice := false, schedule := "celerybeat-schedule"
          task_time_limit := some 1, task_soft_time_limit := some 10
          max_tasks_per_child := none, queues := none, events := false
          db := none } = Except.ok w ∧
      w.task_time_limit = some 1 ∧ w.task_soft_time_limit = some 10 ∧
      (Worker.run
        { loader := { celeryconfigItems := some [] }
          loaderName := "celery.loaders.default.Loader"
          conninfo := "amqp://guest@localhost:5672/"
          routing := { default_exchange := "celery"
                       default_exchange_type := "direct"
                       default_routing_key := "celery" }
          QUEUES := [("celery",
            { exchange := some "celery", exchange_type := some "direct"
              binding_key := some "celery", routing_key := none })]
          createMissing := true
          registered := []
          pendingMessages := 0 } w).error = none ∧
      startedIn (Worker.run
        { loader := { celeryconfigItems := some [] }
          loaderName := "celery.loaders.default.Loader"
          conninfo := "amqp://guest@localhost:5672/"
          routing := { default_exchange := "celery"
                       default_exchange_type := "direct"
                       default_routing_key := "celery" }
          QUEUES := [("celery",
            { exchange := some "celery", exchange_type := some "direct"
              binding_key := some "celery", routing_key := none })]
          createMissing := true
          registered := []
          pendingMessages := 0 } w).events := by
  refine ⟨_, rfl, rfl, rfl, rfl, ?_⟩
  exact ⟨1, by decide⟩

/-- C5 amended: the time limits are not validated at startup — in particular
a hard limit below the soft limit is accepted.  `Worker.__init__` stores
`task_time_limit` and `task_soft_time_limit` exactly as given, and
construction succeeds for every combination of limits. -/
theorem worker_stores_time_limits_unvalidated (env : HostEnv)
    (a : WorkerArgs) (w : WorkerObj)
    (hw : workerInit env a = Except.ok w) :
    w.task_time_limit = a.task_time_limit ∧
    w.task_soft_time_limit = a.task_soft_time_limit ∧
    ∀ hard soft : Option Int, ∃ w2,
      workerInit env
        { a with task_time_limit := hard, task_soft_time_limit := soft } =
          Except.ok w2 ∧
      w2.task_time_limit = hard ∧ w2.task_soft_time_limit = soft := by
  cases hll : resolveLoglevel a.loglevel with
  | error e => simp [workerInit, hll] at hw
  | ok ll =>
    simp [workerInit, hll] at hw
    subst hw
    refine ⟨rfl, rfl, ?_⟩
    intro hard soft
    have hok : workerInit env
        { a with task_time_limit := hard, task_soft_time_limit := soft } =
        Except.ok
          { concurrency :=
              if a.concurrency = 0 then env.cpu_count else a.concurrency
            loglevel := ll
            logfile := a.logfile
            hostname := pyOrStr a.hostname env.gethostname
            discard := a.discard
            run_clockservice := a.run_clockservice
            schedule := a.schedule
            events := a.events
            task_time_limit := hard
            task_soft_time_limit := soft
            max_tasks_per_child := a.max_tasks_per_child
            db := a.db
            queues := normalizeQueuesArg a.queues
            isatty := env.isatty } := by
      simp [workerInit, hll]
    exact ⟨_, hok, rfl, rfl⟩

/-- A host for the time-limit witness. -/
def limitsWitnessEnv : HostEnv :=
  { cpu_count := 4, gethostname := "h", isatty := true }

/-- Constructor arguments with hard limit 1 below soft limit 10. -/
def limitsWitnessArgs : WorkerArgs :=
  { concurrency := 2, loglevel := Sum.inl 20, logfile := none
    hostname := none, discard := false
    run_clockservice := false, schedule := "celerybeat-schedule"
    task_time_limit := some 1, task_soft_time_limit := some 10
    max_tasks_per_child := none, queues := none, events := false
    db := none }

/-- C5 amended witness: hard limit 1 below soft limit 10 is stored
unchanged. -/
theorem worker_stores_time_limits_unvalidated_witness :
    ∃ w, workerInit limitsWitnessEnv limitsWitnessArgs = Except.ok w ∧
      w.task_time_limit = some 1 ∧ w.task_soft_time_limit = some 10 := by
  refine ⟨_, rfl, ?_, ?_⟩
  · exact (worker_stores_time_limits_unvalidated limitsWitnessEnv
      limitsWitnessArgs _ rfl).1
  · exact (worker_stores_time_limits_unvalidated limitsWitnessEnv
      limitsWitnessArgs _ rfl).2.1

/-- C1: a successful Beat dispatch of a due entry advances the stored entry —
`total_run_count` goes up by exactly one and `last_run_at` strictly
increases (the dispatch time is after the previous one) — while a failed
enqueue raises `SchedulingError` and leaves the schedule, and hence the
entry, unchanged, so the next tick retries it. -/
theorem beat_dispatch_advances_entry_or_retries (brokerOk : Bool) (now : Nat)
    (sched : List (String × ScheduleEntry)) (name : String)
    (e : ScheduleEntry) (he : lookupEntry sched name = some e) :
    (brokerOk = true →
      Scheduler.apply_async true now sched name =
        Except.ok (schedUpdate sched name (e.next now)) ∧
      lookupEntry (schedUpdate sched name (e.next now)) name =
        some (e.next now) ∧
      (e.next now).total_run_count = e.total_run_count + 1 ∧
      (e.last_run_at < now → e.last_run_at < (e.next now).last_run_at)) ∧
    (brokerOk = false →
      Scheduler.apply_async false now sched name =
        Except.error PyErr.schedulingError ∧
      Scheduler.tickDispatch false now sched name = sched ∧
      lookupEntry (Scheduler.tickDispatch false now sched name) name =
        some e) := by
  constructor
  · intro _
    refine ⟨by simp [Scheduler.apply_async, he], ?_, rfl, ?_⟩
    · exact lookupEntry_schedUpdate sched name e (e.next now) he
    · intro hlt; simpa [ScheduleEntry.next] using hlt
  · intro _
    refine ⟨by simp [Scheduler.apply_async, he], ?_, ?_⟩
    · simp [Scheduler.tickDispatch, Scheduler.apply_async, he]
    · simp [Scheduler.tickDispatch, Scheduler.apply_async, he]

/-- C1 witness: a concrete schedule with one entry, dispatched successfully
at time 5 (entry advances to run count 301) and unsuccessfully at time 6
(schedule unchanged). -/
theorem beat_dispatch_advances_entry_or_retries_witness :
    (Scheduler.apply_async true 5
        [("tasks.add",
          { name := "tasks.add", last_run_at := 3, total_run_count := 300 })]
        "tasks.add" =
      Except.ok
        [("tasks.add",
          { name := "tasks.add", last_run_at := 5,
            total_run_count := 301 })]) ∧
    (Scheduler.tickDispatch false 6
        [("tasks.add",
          { name := "tasks.add", last_run_at := 3, total_run_count := 300 })]
        "tasks.add" =
      [("tasks.add",
        { name := "tasks.add", last_run_at := 3,
          total_run_count := 300 })]) := by
  constructor
  · have h := ((beat_dispatch_advances_entry_or_retries true 5
      [("tasks.add",
        { name := "tasks.add", last_run_at := 3, total_run_count := 300 })]
      "tasks.add"
      { name := "tasks.add", last_run_at := 3, total_run_count := 300 }
      (by decide)).1 rfl).1
    rw [h]; rfl
  · exact ((beat_dispatch_advances_entry_or_retries false 6
      [("tasks.add",
        { name := "tasks.add", last_run_at := 3, total_run_count := 300 })]
      "tasks.add"
      { name := "tasks.add", last_run_at := 3, total_run_count := 300 }
      (by decide)).2 rfl).2.1

/-- C3: with the first-`SIGINT` handler installed, a `SIGINT` in the main
process performs a warm shutdown — a logged warning followed by
`worker.stop()` — and re-installs the handler so that a second `SIGINT`
performs a cold shutdown (`worker.terminate()`); both handlers raise
`SystemExit`. -/
theorem sigint_warm_then_cold (s : MainState)
    (h : s.intHandler = IntHandler.first) :
    (deliverSIGINT "MainProcess" s).1.worker.stopped = true ∧
    (deliverSIGINT "MainProcess" s).1.worker.terminated =
      s.worker.terminated ∧
    (deliverSIGINT "MainProcess" s).1.intHandler = IntHandler.again ∧
    "celeryd: Warm shutdown (MainProcess)" ∈
      (deliverSIGINT "MainProcess" s).1.log ∧
    (deliverSIGINT "MainProcess" s).2 = true ∧
    (deliverSIGINT "MainProcess"
      (deliverSIGINT "MainProcess" s).1).1.worker.terminated = true ∧
    "celeryd: Cold shutdown (MainProcess)" ∈
      (deliverSIGINT "MainProcess"
        (deliverSIGINT "MainProcess" s).1).1.log ∧
    (deliverSIGINT "MainProcess" (deliverSIGINT "MainProcess" s).1).2 =
      true := by
  simp [deliverSIGINT, h]

/-- C3 witness: from a freshly installed handler with a running worker, two
concrete `SIGINT` deliveries warm-stop then cold-terminate. -/
theorem sigint_warm_then_cold_witness :
    (deliverSIGINT "MainProcess"
      { worker := { stopped := false, terminated := false }
        intHandler := IntHandler.first
        log := [] }).1.worker.stopped = true ∧
    (deliverSIGINT "MainProcess"
      (deliverSIGINT "MainProcess"
        { worker := { stopped := false, terminated := false }
          intHandler := IntHandler.first
          log := [] }).1).1.worker.terminated = true :=
  ⟨(sigint_warm_then_cold
      { worker := { stopped := false, terminated := false }
        intHandler := IntHandler.first
        log := [] } rfl).1,
   (sigint_warm_then_cold
      { worker := { stopped := false, terminated := false }
        intHandler := IntHandler.first
        log := [] } rfl).2.2.2.2.2.1⟩

/-- C6: the `SIGHUP` restart handler (warn, `worker.stop()`, re-exec the
process with identical arguments) is installed exactly when stdout is not a
terminal and the platform is not OS X; when not a terminal on OS X,
`SIGHUP` only logs an error and neither stops nor re-execs; when attached
to a terminal no `SIGHUP` handler is installed at all. -/
theorem sighup_handler_installation (isOSX isatty : Bool) (exe : String)
    (argv : List String) :
    (installedHupHandler isOSX isatty = some HupHandler.restart ↔
      isatty = false ∧ isOSX = false) ∧
    (installedHupHandler isOSX isatty = some HupHandler.notSupported ↔
      isatty = false ∧ isOSX = true) ∧
    (installedHupHandler isOSX isatty = none ↔ isatty = true) ∧
    runHupHandler HupHandler.restart exe argv =
      [SigAction.warnLog
        ("Restarting celeryd (" ++ " ".intercalate argv ++ ")"),
       SigAction.stopWorker,
       SigAction.execv exe (exe :: argv)] ∧
    runHupHandler HupHandler.notSupported exe argv =
      [SigAction.errorLog
        "SIGHUP not supported: Restarting with HUP is unstable on this platform!"] ∧
    SigAction.stopWorker ∉ runHupHandler HupHandler.notSupported exe argv ∧
    (∀ e2 a2, SigAction.execv e2 a2 ∉
      runHupHandler HupHandler.notSupported exe argv) := by
  cases isOSX <;> cases isatty <;>
    simp [installedHupHandler, runHupHandler]

/-- C7: when no celeryconfig module can be imported, `read_configuration`
issues the `NotConfigured` warning, returns the fallback settings and leaves
`configured` false; `Worker.run` then raises `ImproperlyConfigured` as its
first step, before any other effect — in particular the `WorkController` is
never started. -/
theorem unconfigured_loader_aborts_startup (env : RunEnv) (w : WorkerObj)
    (hnone : env.loader.celeryconfigItems = none) :
    (read_configuration env.loader false).warnings = ["NotConfigured"] ∧
    (read_configuration env.loader false).configured = false ∧
    (read_configuration env.loader false).settings =
      setup_settings DEFAULT_UNCONFIGURED_SETTINGS ∧
    (Worker.run env w).error = some PyErr.improperlyConfigured ∧
    (Worker.run env w).events = [RunEvent.warning "NotConfigured"] ∧
    ¬ startedIn (Worker.run env w).events := by
  have hload : init_loader env.loader =
      (["NotConfigured"], Except.error PyErr.improperlyConfigured) := by
    simp [init_loader, read_configuration, hnone]
  refine ⟨?_, ?_, ?_, ?_, ?_, ?_⟩
  · simp [read_configuration, hnone]
  · simp [read_configuration, hnone]
  · simp [read_configuration, hnone]
  · simp [Worker.run, hload]
  · simp [Worker.run, hload]
  · simp [Worker.run, hload, startedIn]

/-- C7 witness: a concrete environment whose celeryconfig import fails ends
the run with `ImproperlyConfigured` and no worker start. -/
theorem unconfigured_loader_aborts_startup_witness :
    (Worker.run
      { loader := { celeryconfigItems := none }
        loaderName := "celery.loaders.default.Loader"
        conninfo := "amqp://guest@localhost:5672/"
        routing := { default_exchange := "celery"
                     default_exchange_type := "direct"
                     default_routing_key := "celery" }
        QUEUES := []
        createMissing := true
        registered := []
        pendingMessages := 3 }
      { concurrency := 2, loglevel := 30, logfile := none, hostname := "h"
        discard := false, run_clockservice := false
        schedule := "celerybeat-schedule", events := false
        task_time_limit := none, task_soft_time_limit := none
        max_tasks_per_child := none, db := none, queues := []
        isatty := true }).error = some PyErr.improperlyConfigured :=
  (unconfigured_loader_aborts_startup _ _ rfl).2.2.2.1

/-- C8: with the purge/discard flag set (and an otherwise startable
configuration), the run discards all waiting messages — the broker backlog
is zero afterwards — and prints the discarded count, strictly before the
`WorkController` is started. -/
theorem purge_discards_before_worker_start (env : RunEnv) (w : WorkerObj)
    (items : List (String × PyVal))
    (hcfg : env.loader.celeryconfigItems = some items)
    (qs : List (String × QueueOpts))
    (hq : init_queues w.queues env.createMissing env.QUEUES = Except.ok qs)
    (hdiscard : w.discard = true) :
    (Worker.run env w).error = none ∧
    (Worker.run env w).brokerPending = 0 ∧
    ∃ pre mid, (Worker.run env w).events =
      pre ++
        RunEvent.printDiscard env.pendingMessages
          (discardLine env.pendingMessages) ::
        (mid ++ [RunEvent.workerStarted w.concurrency]) := by
  have hload : init_loader env.loader =
      ([], Except.ok
        (setup_settings (items.filter (fun kv => wanted_module_item kv.1)))) := by
    simp [init_loader, read_configuration, hcfg]
  simp only [Worker.run, hload, hq, hdiscard, List.map_nil, List.nil_append,
    if_true]
  by_cases hdbg :
      ((dictGet (setup_settings
          (items.filter (fun kv => wanted_module_item kv.1))) "DEBUG").map
        pyTruthy).getD false = true
  · refine ⟨True.intro, True.intro,
      [RunEvent.printStarting w.hostname, RunEvent.warnSettingsDebug],
      [RunEvent.workerInitHook,
       RunEvent.printBanner
        (startup_info w env.registered env.routing qs env.conninfo
          env.loaderName)], ?_⟩
    simp [hdbg]
  · refine ⟨True.intro, True.intro,
      [RunEvent.printStarting w.hostname],
      [RunEvent.workerInitHook,
       RunEvent.printBanner
        (startup_info w env.registered env.routing qs env.conninfo
          env.loaderName)], ?_⟩
    simp [hdbg]

/-- A concrete, startable run environment with 7 waiting broker messages. -/
def purgeWitnessEnv : RunEnv :=
  { loader := { celeryconfigItems := some [] }
    loaderName := "celery.loaders.default.Loader"
    conninfo := "amqp://guest@localhost:5672/"
    routing := { default_exchange := "celery"
                 default_exchange_type := "direct"
                 default_routing_key := "celery" }
    QUEUES := []
    createMissing := true
    registered := []
    pendingMessages := 7 }

/-- A concrete worker constructed with the discard flag. -/
def purgeWitnessWorker : WorkerObj :=
  { concurrency := 2, loglevel := 30, logfile := none, hostname := "h"
    discard := true, run_clockservice := false
    schedule := "celerybeat-schedule", events := false
    task_time_limit := none, task_soft_time_limit := none
    max_tasks_per_child := none, db := none, queues := []
    isatty := true }

/-- C8 witness: a concrete run with the discard flag erases the 7 waiting
messages and prints the count before the worker starts. -/
theorem purge_discards_before_worker_start_witness :
    (Worker.run purgeWitnessEnv purgeWitnessWorker).brokerPending = 0 ∧
    discardLine 7 = "discard: Erased 7 messages from the queue.\n" :=
  ⟨(purge_discards_before_worker_start purgeWitnessEnv purgeWitnessWorker
      [] rfl [] rfl rfl).2.1,
   rfl⟩

/-- C9: the startup banner carries the broker connection info, the active
queue table (completed by `get_queues`), the concurrency, the loader class
name, the log file (or `"[stderr]"`) with the log level name, events ON/OFF
and beat ON/OFF; its task list is non-empty exactly when the log level is
INFO (20) or finer, and a registered `celery.*` builtin appears among the
listed names exactly when the log level is DEBUG (10) or finer. -/
theorem startup_banner_contents (w : WorkerObj) (registered : List String)
    (rc : RoutingConf) (QUEUES : List (String × QueueOpts))
    (conninfo loaderName : String) :
    (startup_info w registered rc QUEUES conninfo loaderName).conninfo =
      conninfo ∧
    (startup_info w registered rc QUEUES conninfo loaderName).queues =
      get_queues rc QUEUES ∧
    (startup_info w registered rc QUEUES conninfo loaderName).concurrency =
      w.concurrency ∧
    (startup_info w registered rc QUEUES conninfo loaderName).loader =
      loaderName ∧
    (startup_info w registered rc QUEUES conninfo loaderName).loglevelName =
      LOG_LEVELS_nameOf w.loglevel ∧
    (startup_info w registered rc QUEUES conninfo loaderName).logfile =
      pyOrStr w.logfile "[stderr]" ∧
    (startup_info w registered rc QUEUES conninfo loaderName).events =
      (if w.events then "ON" else "OFF") ∧
    (startup_info w registered rc QUEUES conninfo loaderName).celerybeat =
      (if w.run_clockservice then "ON" else "OFF") ∧
    ((startup_info w registered rc QUEUES conninfo loaderName).tasks ≠ "" ↔
      w.loglevel ≤ 20) ∧
    (w.loglevel ≤ 20 →
      (startup_info w registered rc QUEUES conninfo loaderName).tasks =
        tasklistRender registered (includeBuiltins w.loglevel)) ∧
    (∀ t, t ∈ registered →
      (t ∈ sortStrings (tasklistNames registered (includeBuiltins w.loglevel))
        ↔ (w.loglevel ≤ 10 ∨ t.startsWith "celery." = false))) := by
  refine ⟨rfl, rfl, rfl, rfl, rfl, rfl, rfl, rfl, ?_, ?_, ?_⟩
  · by_cases h20 : w.loglevel ≤ 20
    · simp only [startup_info, h20, if_true, iff_true, ne_eq]
      intro hh
      rw [tasklistRender] at hh
      have hlen := congrArg String.length hh
      rw [String.length_append] at hlen
      have h15 : ("    . tasks ->\n").length = 15 := rfl
      have h0 : ("" : String).length = 0 := rfl
      rw [h15, h0] at hlen
      omega
    · simp [startup_info, h20]
  · intro h20
    simp [startup_info, h20]
  · intro t ht
    rw [mem_sortStrings]
    by_cases h10 : w.loglevel ≤ 10
    · simp [tasklistNames, includeBuiltins, h10, ht]
    · simp [tasklistNames, includeBuiltins, h10, ht, List.mem_filter]

/-- C9 witness: at WARNING level the task list is empty; at DEBUG the
builtin appears, at INFO it does not. -/
theorem startup_banner_contents_witness :
    ((startup_info
        { concurrency := 2, loglevel := 30, logfile := none, hostname := "h"
          discard := false, run_clockservice := false
          schedule := "celerybeat-schedule", events := false
          task_time_limit := none, task_soft_time_limit := none
          max_tasks_per_child := none, db := none, queues := []
          isatty := true }
        ["celery.ping", "tasks.add"]
        { default_exchange := "celery", default_exchange_type := "direct"
          default_routing_key := "celery" }
        [] "conn" "Loader").tasks ≠ "" ↔ (30 : Int) ≤ 20) :=
  (startup_banner_contents
    { concurrency := 2, loglevel := 30, logfile := none, hostname := "h"
      discard := false, run_clockservice := false
      schedule := "celerybeat-schedule", events := false
      task_time_limit := none, task_soft_time_limit := none
      max_tasks_per_child := none, db := none, queues := []
      isatty := true }
    ["celery.ping", "tasks.add"]
    { default_exchange := "celery", default_exchange_type := "direct"
      default_routing_key := "celery" }
    [] "conn" "Loader").2.2.2.2.2.2.2.2.1

end Celery
